import Mathlib

/-!
Verification of the resource-handle lifecycle manager of a campaign-management
web application.  The subsystem under study consists of:

* a Handle Validator (`testResourceId` in the source): probes a candidate
  handle with a GET request and classifies the outcome as a boolean
  (true = live or indeterminate, false = expired);
* a Handle Provisioner (`fetchNewResourceId`): fetches the provider homepage
  and extracts a fresh handle by an ordered regex scan;
* a Handle Store (`localStorage` access via `getStoredResourceId`,
  `storeResourceId`, `clearResourceId`);
* a Handle Lifecycle Manager (`getResourceId`): orchestrates the three above;
* a Data Operation Gateway (`apiRequest`): wraps each CRUD request with the
  current handle and retries exactly once on an expired-class failure.

The network is modelled by scripts inside an explicit environment `Env`: each
successive probe, discovery fetch and CRUD fetch consumes the next entry of
its script.  Effects on `localStorage` are modelled by an `Option String`
field, and the functions return their event trace explicitly.
-/

namespace ResourceManager

/-- Outcome of a single `fetch` call as observed by the calling code: an HTTP
response with its status code, a thrown `TypeError` whose message contains the
word fetch, a thrown `TypeError` without it, or any other thrown error. -/
inductive FetchOutcome where
  | status (s : Nat)
  | typeErrorFetch
  | typeErrorOther
  | otherError
deriving DecidableEq

/-- Events recorded by the model: a validator probe, a store clear, a
provisioning (discovery) fetch, a store save, and a CRUD-endpoint attempt. -/
inductive Event where
  | probe
  | clear
  | provision
  | save
  | crudAttempt
deriving DecidableEq

/-- One character of the character class of the source regex, case
insensitively: a-f, A-F or 0-9. -/
def isHexDigit (c : Char) : Bool :=
  (decide ('a' ≤ c) && decide (c ≤ 'f')) ||
  (decide ('A' ≤ c) && decide (c ≤ 'F')) ||
  (decide ('0' ≤ c) && decide (c ≤ '9'))

/-- Source `isValidResourceId`: the whole string matches the case-insensitive
regex of at least 32 hexadecimal characters. -/
def isValidResourceId (s : String) : Bool :=
  decide (32 ≤ s.length) && s.data.all isHexDigit

/-- Source `testResourceId`: classifies the probe outcome.  Statuses 400, 404
and 410 and any thrown `TypeError` are classified expired (false); every 2xx
response, every other status and every other thrown error is classified
valid (true). -/
def testResourceId : FetchOutcome → Bool
  | .status s =>
    if s = 400 ∨ s = 404 ∨ s = 410 then false
    else if (200 ≤ s ∧ s ≤ 299) ∨ s = 200 then true
    else true
  | .typeErrorFetch => false
  | .typeErrorOther => false
  | .otherError => true

/-- Source `testResourceId` with the possibility of a propagated exception made
explicit in the return type: every branch of the source resolves with a
boolean, so every case here is `Except.ok`. -/
def testResourceIdE : FetchOutcome → Except Unit Bool
  | .status s =>
    if s = 400 ∨ s = 404 ∨ s = 410 then .ok false
    else if (200 ≤ s ∧ s ≤ 299) ∨ s = 200 then .ok true
    else .ok true
  | .typeErrorFetch => .ok false
  | .typeErrorOther => .ok false
  | .otherError => .ok true

/-- Longest run of hexadecimal characters at the head of the list: the capture
of the greedy quantifier of the source regexes. -/
def hexRun : List Char → List Char
  | [] => []
  | c :: cs => if isHexDigit c then c :: hexRun cs else []

/-- Case-insensitive literal match at the head of the list, modelling the
i flag of the source regexes. -/
def startsWithCI : List Char → List Char → Bool
  | [], _ => true
  | _ :: _, [] => false
  | p :: ps, c :: cs => decide (p.toLower = c.toLower) && startsWithCI ps cs

/-- Match of a source pattern of the form literal-then-capture at the head of
the list: the literal, case-insensitively, followed by a greedy run of at
least 32 hexadecimal characters. -/
def matchAfterLit (lit : List Char) (l : List Char) : Option (List Char) :=
  if startsWithCI lit l then
    let run := hexRun (l.drop lit.length)
    if 32 ≤ run.length then some run else none
  else none

/-- Match of the third source pattern at the head of the list: a double quote,
a greedy run of at least 32 hexadecimal characters, and a closing double
quote. -/
def matchQuoted (l : List Char) : Option (List Char) :=
  match l with
  | [] => none
  | c :: cs =>
    if c = '"' then
      let run := hexRun cs
      if 32 ≤ run.length ∧ (cs.drop run.length).head? = some '"' then some run
      else none
    else none

/-- Leftmost match of one pattern over the body, keeping only captures that
also pass `isValidResourceId`, as the source loop over `matchAll` does. -/
def scanFor (m : List Char → Option (List Char)) : List Char → Option (List Char)
  | [] => none
  | c :: cs =>
    match m (c :: cs) with
    | some cap => if isValidResourceId (String.mk cap) then some cap else scanFor m cs
    | none => scanFor m cs

/-- Literal of the first source extraction pattern. -/
def pat1 : List Char := "crudcrud.com/api/".data

/-- Literal of the second source extraction pattern. -/
def pat2 : List Char := "api/".data

/-- Ordered scan of the response body with the three source extraction
patterns, most specific first, returning the first valid capture. -/
def extractedId (body : String) : Option (List Char) :=
  match scanFor (matchAfterLit pat1) body.data with
  | some cap => some cap
  | none =>
    match scanFor (matchAfterLit pat2) body.data with
    | some cap => some cap
    | none => scanFor matchQuoted body.data

/-- Source `fetchNewResourceId`, as a function of the discovery fetch outcome:
`Except.error` on input models a thrown network error, `Except.ok (s, body)` an
HTTP response with status `s` and text `body`.  A non-2xx status, a network
error, and a body with no extractable identifier all end in the single thrown
provisioning error of the source. -/
def fetchNewResourceId (r : Except Unit (Nat × String)) : Except Unit String :=
  match r with
  | .error _ => .error ()
  | .ok (s, body) =>
    if ¬ (200 ≤ s ∧ s ≤ 299) then .error ()
    else
      match extractedId body with
      | some cap => .ok (String.mk cap)
      | none => .error ()

/-- The explicit state of the model: whether a browser window (and hence
`localStorage`) exists, the stored handle, and the scripts and cursors of the
three network interaction points. -/
structure Env where
  hasWindow : Bool
  store : Option String
  probeAt : Nat → FetchOutcome
  discoveryAt : Nat → Except Unit (Nat × String)
  fetchAt : Nat → FetchOutcome
  probeIdx : Nat
  discIdx : Nat
  fetchIdx : Nat

/-- Source `getStoredResourceId`: returns null outside a browser, otherwise
reads the stored key. -/
def getStoredResourceId (e : Env) : Option String :=
  if e.hasWindow then e.store else none

/-- Calling `getStoredResourceId` as a state-passing operation: the read
leaves the state untouched. -/
def loadRun (e : Env) : Option String × Env :=
  (getStoredResourceId e, e)

/-- Source `clearResourceId`: a no-op outside a browser, otherwise removes the
stored key. -/
def clearResourceId (e : Env) : Env :=
  if e.hasWindow then { e with store := none } else e

/-- Source `storeResourceId`: writes the stored key unconditionally (its
callers all check for a browser first). -/
def storeResourceId (id : String) (e : Env) : Env :=
  { e with store := some id }

/-- Errors thrown by `getResourceId`: the no-browser error at entry and the
wrapped provisioning failure. -/
inductive GetErr where
  | noBrowser
  | provisionFailed
deriving DecidableEq

/-- Source `getResourceId`: throws outside a browser; otherwise loads the
stored handle, probes it when present and returns it when the probe passes,
clearing it when the probe fails; provisions, saves and returns a fresh handle
when none (or no valid one) is stored, propagating provisioning failure. -/
def getResourceIdRun (e : Env) : Except GetErr String × Env × List Event :=
  if e.hasWindow = false then (.error .noBrowser, e, [])
  else
    match getStoredResourceId e with
    | some id =>
      let o := e.probeAt e.probeIdx
      let e1 : Env := { e with probeIdx := e.probeIdx + 1 }
      if testResourceId o then (.ok id, e1, [.probe])
      else
        let e2 := clearResourceId e1
        match fetchNewResourceId (e2.discoveryAt e2.discIdx) with
        | .error _ =>
          (.error .provisionFailed, { e2 with discIdx := e2.discIdx + 1 },
            [.probe, .clear, .provision])
        | .ok nid =>
          (.ok nid, storeResourceId nid { e2 with discIdx := e2.discIdx + 1 },
            [.probe, .clear, .provision, .save])
    | none =>
      match fetchNewResourceId (e.discoveryAt e.discIdx) with
      | .error _ =>
        (.error .provisionFailed, { e with discIdx := e.discIdx + 1 }, [.provision])
      | .ok nid =>
        (.ok nid, storeResourceId nid { e with discIdx := e.discIdx + 1 },
          [.provision, .save])

/-- Source `setResourceId`: rejects outside a browser, rejects the empty
string and any string failing `isValidResourceId`, and otherwise persists. -/
def setResourceId (s : String) (e : Env) : Bool × Env :=
  if e.hasWindow = false then (false, e)
  else if s = "" ∨ isValidResourceId s = false then (false, e)
  else (true, storeResourceId s e)

/-- Errors surfaced by the Gateway `apiRequest`: the two handle-acquisition
errors, the four user-facing status messages (expired 400, not found 404, gone
410, service unavailable 5xx), the generic failure message for other statuses,
the network error of a second-attempt fetch failure, and a re-thrown foreign
error. -/
inductive ApiErr where
  | noBrowser
  | provisionFailed
  | expiredResource
  | notFoundResource
  | goneResource
  | serviceUnavailable
  | requestFailed (s : Nat)
  | networkErr
  | rethrown
deriving DecidableEq

/-- Successful Gateway results: the empty acknowledgment of a DELETE or 204,
or a parsed JSON body. -/
inductive ApiOk where
  | emptyBody
  | jsonBody
deriving DecidableEq

/-- Lifts a handle-acquisition error into the Gateway error type. -/
def liftGetErr : GetErr → ApiErr
  | .noBrowser => .noBrowser
  | .provisionFailed => .provisionFailed

/-- Message category chosen by `apiRequest` for a non-ok status that does not
trigger a retry. -/
def statusErr (s : Nat) : ApiErr :=
  if s = 400 then .expiredResource
  else if s = 404 then .notFoundResource
  else if s = 410 then .goneResource
  else if 500 ≤ s then .serviceUnavailable
  else .requestFailed s

/-- Source `apiRequest` of the Gateway: acquires the handle via
`getResourceId`, issues the CRUD fetch, and on a 400/404/410 status or a
`TypeError` mentioning fetch on the first attempt clears the handle and
recurses exactly once with `retryCount + 1`.  On the second attempt those
statuses fall through to the user-facing error messages and the `TypeError`
becomes the network error; other errors are surfaced without any retry. -/
def apiRequest (isDelete : Bool) (retryCount : Nat) (e : Env) :
    Except ApiErr ApiOk × Env × List Event :=
  match getResourceIdRun e with
  | (.error ge, e1, evs) => (.error (liftGetErr ge), e1, evs)
  | (.ok _, e1, evs) =>
    let o := e1.fetchAt e1.fetchIdx
    let e2 : Env := { e1 with fetchIdx := e1.fetchIdx + 1 }
    match o with
    | .status s =>
      if h : (s = 400 ∨ s = 404 ∨ s = 410) ∧ retryCount = 0 then
        let r := apiRequest isDelete (retryCount + 1) (clearResourceId e2)
        (r.1, r.2.1, evs ++ [.crudAttempt, .clear] ++ r.2.2)
      else if ¬ (200 ≤ s ∧ s ≤ 299) then
        (.error (statusErr s), e2, evs ++ [.crudAttempt])
      else if s = 204 ∨ isDelete = true then
        (.ok .emptyBody, e2, evs ++ [.crudAttempt])
      else
        (.ok .jsonBody, e2, evs ++ [.crudAttempt])
    | .typeErrorFetch =>
      if h : retryCount = 0 then
        let r := apiRequest isDelete (retryCount + 1) (clearResourceId e2)
        (r.1, r.2.1, evs ++ [.crudAttempt, .clear] ++ r.2.2)
      else
        (.error .networkErr, e2, evs ++ [.crudAttempt])
    | .typeErrorOther => (.error .rethrown, e2, evs ++ [.crudAttempt])
    | .otherError => (.error .rethrown, e2, evs ++ [.crudAttempt])
termination_by 1 - retryCount
decreasing_by
  · obtain ⟨-, h0⟩ := h
    omega
  · omega

/-- The outcomes the Gateway treats as an expired handle on a first attempt:
statuses 400, 404 and 410, and a `TypeError` whose message mentions fetch. -/
def isExpiredClass : FetchOutcome → Bool
  | .status s => decide (s = 400 ∨ s = 404 ∨ s = 410)
  | .typeErrorFetch => true
  | .typeErrorOther => false
  | .otherError => false

/-- Stated from the spec: the not-found/gone status class in the ordinary
HTTP sense, 404 Not Found and 410 Gone. -/
def notFoundGone (s : Nat) : Bool :=
  decide (s = 404 ∨ s = 410)

/-- Stated from the spec: the handle format contract, a case-insensitive
hexadecimal string of minimum length 32. -/
def SpecHexFormat (s : String) : Prop :=
  32 ≤ s.length ∧ ∀ c ∈ s.data, isHexDigit c = true

instance (s : String) : Decidable (SpecHexFormat s) := by
  unfold SpecHexFormat
  infer_instance

/-- A 32-character stored handle used by concrete runs. -/
def idA : String := "aaaaaaaaaaaaaaaaaaaaaaaaaaaaaaaa"

/-- A 32-character freshly provisioned handle used by concrete runs. -/
def idB : String := "bbbbbbbbbbbbbbbbbbbbbbbbbbbbbbbb"

/-- A concrete environment: a stored handle probing live, a discovery page
containing a fresh handle, a first CRUD fetch answered with status 400 and
every later one with 200. -/
def envBadRequest : Env where
  hasWindow := true
  store := some idA
  probeAt := fun _ => .status 200
  discoveryAt := fun _ => .ok (200, "api/" ++ idB)
  fetchAt := fun n => if n = 0 then .status 400 else .status 200
  probeIdx := 0
  discIdx := 0
  fetchIdx := 0

/-- A concrete environment: a stored handle probing live, a discovery page
containing a fresh handle, and every CRUD fetch answered with status 404. -/
def envTwiceGone : Env where
  hasWindow := true
  store := some idA
  probeAt := fun _ => .status 200
  discoveryAt := fun _ => .ok (200, "api/" ++ idB)
  fetchAt := fun _ => .status 404
  probeIdx := 0
  discIdx := 0
  fetchIdx := 0

/-- A concrete environment: a stored handle probing live and every CRUD fetch
answered with status 401. -/
def envUnauthorized : Env where
  hasWindow := true
  store := some idA
  probeAt := fun _ => .status 200
  discoveryAt := fun _ => .ok (200, "api/" ++ idB)
  fetchAt := fun _ => .status 401
  probeIdx := 0
  discIdx := 0
  fetchIdx := 0

/-- A concrete environment with an empty store and a working discovery page. -/
def envEmptyStore : Env where
  hasWindow := true
  store := none
  probeAt := fun _ => .status 200
  discoveryAt := fun _ => .ok (200, "api/" ++ idB)
  fetchAt := fun _ => .status 200
  probeIdx := 0
  discIdx := 0
  fetchIdx := 0

/-- A concrete environment with an empty store and an unreachable discovery
endpoint. -/
def envNoDiscovery : Env where
  hasWindow := true
  store := none
  probeAt := fun _ => .status 200
  discoveryAt := fun _ => .error ()
  fetchAt := fun _ => .status 200
  probeIdx := 0
  discIdx := 0
  fetchIdx := 0

/-- A concrete environment outside a browser. -/
def envNoWindow : Env where
  hasWindow := false
  store := some idA
  probeAt := fun _ => .status 200
  discoveryAt := fun _ => .ok (200, "api/" ++ idB)
  fetchAt := fun _ => .status 200
  probeIdx := 0
  discIdx := 0
  fetchIdx := 0

/-! Helper lemmas about the lifecycle manager. -/

theorem valid_iff_spec (s : String) : isValidResourceId s = true ↔ SpecHexFormat s := by
  unfold isValidResourceId SpecHexFormat
  simp [List.all_eq_true]

theorem getRun_empty (e : Env) (nid : String) (hw : e.hasWindow = true)
    (hs : e.store = none)
    (hprov : fetchNewResourceId (e.discoveryAt e.discIdx) = .ok nid) :
    getResourceIdRun e =
      (.ok nid, { e with discIdx := e.discIdx + 1, store := some nid },
        [.provision, .save]) := by
  simp [getResourceIdRun, getStoredResourceId, storeResourceId, hw, hs, hprov]

theorem getRun_live (e : Env) (id : String) (hs : e.store = some id)
    (hw : e.hasWindow = true)
    (hprobe : testResourceId (e.probeAt e.probeIdx) = true) :
    getResourceIdRun e = (.ok id, { e with probeIdx := e.probeIdx + 1 }, [.probe]) := by
  simp [getResourceIdRun, getStoredResourceId, hw, hs, hprobe]

theorem getRun_expired (e : Env) (id nid : String) (hs : e.store = some id)
    (hw : e.hasWindow = true)
    (hprobe : testResourceId (e.probeAt e.probeIdx) = false)
    (hprov : fetchNewResourceId (e.discoveryAt e.discIdx) = .ok nid) :
    getResourceIdRun e =
      (.ok nid,
        { e with probeIdx := e.probeIdx + 1, discIdx := e.discIdx + 1, store := some nid },
        [.probe, .clear, .provision, .save]) := by
  simp [getResourceIdRun, getStoredResourceId, clearResourceId, storeResourceId,
    hw, hs, hprobe, hprov]

theorem getRun_empty_fail (e : Env) (hw : e.hasWindow = true) (hs : e.store = none)
    (hp : fetchNewResourceId (e.discoveryAt e.discIdx) = .error ()) :
    getResourceIdRun e =
      (.error .provisionFailed, { e with discIdx := e.discIdx + 1 }, [.provision]) := by
  simp [getResourceIdRun, getStoredResourceId, hw, hs, hp]

theorem getRun_expired_fail (e : Env) (id : String) (hw : e.hasWindow = true)
    (hs : e.store = some id)
    (hprobe : testResourceId (e.probeAt e.probeIdx) = false)
    (hp : fetchNewResourceId (e.discoveryAt e.discIdx) = .error ()) :
    getResourceIdRun e =
      (.error .provisionFailed,
        { e with probeIdx := e.probeIdx + 1, discIdx := e.discIdx + 1, store := none },
        [.probe, .clear, .provision]) := by
  simp [getResourceIdRun, getStoredResourceId, clearResourceId, hw, hs, hprobe, hp]

theorem getRun_no_crud (e : Env) :
    List.count Event.crudAttempt (getResourceIdRun e).2.2 = 0 := by
  simp only [getResourceIdRun, getStoredResourceId]
  repeat' split
  all_goals rfl

theorem getRun_ok_fields (e : Env) (rid : String) (e1 : Env) (evs : List Event)
    (h : getResourceIdRun e = (.ok rid, e1, evs)) :
    e.hasWindow = true ∧ e1.hasWindow = e.hasWindow ∧ e1.fetchAt = e.fetchAt ∧
      e1.fetchIdx = e.fetchIdx ∧ e1.discoveryAt = e.discoveryAt := by
  cases hw : e.hasWindow with
  | false => simp [getResourceIdRun, hw] at h
  | true =>
    cases hs : e.store with
    | none =>
      cases hp : fetchNewResourceId (e.discoveryAt e.discIdx) with
      | error u =>
        cases u
        rw [getRun_empty_fail e hw hs hp] at h
        simp at h
      | ok nid =>
        rw [getRun_empty e nid hw hs hp] at h
        simp only [Prod.mk.injEq] at h
        obtain ⟨-, h2, -⟩ := h
        subst h2
        simp [hw]
    | some id =>
      cases hprobe : testResourceId (e.probeAt e.probeIdx) with
      | true =>
        rw [getRun_live e id hs hw hprobe] at h
        simp only [Prod.mk.injEq] at h
        obtain ⟨-, h2, -⟩ := h
        subst h2
        simp [hw]
      | false =>
        cases hp : fetchNewResourceId (e.discoveryAt e.discIdx) with
        | error u =>
          cases u
          rw [getRun_expired_fail e id hw hs hprobe hp] at h
          simp at h
        | ok nid =>
          rw [getRun_expired e id nid hs hw hprobe hp] at h
          simp only [Prod.mk.injEq] at h
          obtain ⟨-, h2, -⟩ := h
          subst h2
          simp [hw]

/-- C4: for every Store state in a browser, getHandle follows the specified
algorithm: empty Store means one provision and one save returning the new
value; a stored handle probing valid is returned unchanged with no provision;
a stored handle probing expired means clear, then provision, then save,
returning the new value. -/
theorem lifecycle_getHandle_algorithm (e : Env) (hw : e.hasWindow = true) :
    (∀ nid, e.store = none →
      fetchNewResourceId (e.discoveryAt e.discIdx) = .ok nid →
      getResourceIdRun e =
        (.ok nid, { e with discIdx := e.discIdx + 1, store := some nid },
          [.provision, .save])) ∧
    (∀ id, e.store = some id →
      testResourceId (e.probeAt e.probeIdx) = true →
      getResourceIdRun e = (.ok id, { e with probeIdx := e.probeIdx + 1 }, [.probe])) ∧
    (∀ id nid, e.store = some id →
      testResourceId (e.probeAt e.probeIdx) = false →
      fetchNewResourceId (e.discoveryAt e.discIdx) = .ok nid →
      getResourceIdRun e =
        (.ok nid,
          { e with probeIdx := e.probeIdx + 1, discIdx := e.discIdx + 1, store := some nid },
          [.probe, .clear, .provision, .save])) :=
  ⟨fun nid hs hp => getRun_empty e nid hw hs hp,
   fun id hs hp => getRun_live e id hs hw hp,
   fun id nid hs hp hq => getRun_expired e id nid hs hw hp hq⟩

/-- C4 witness: the empty-store scenario on a concrete environment. -/
theorem lifecycle_getHandle_algorithm_w :
    getResourceIdRun envEmptyStore =
      (.ok idB, { envEmptyStore with discIdx := 1, store := some idB },
        [.provision, .save]) :=
  (lifecycle_getHandle_algorithm envEmptyStore rfl).1 idB rfl (by rfl)

/-- C1 counterexample: the probe classifies status 400 as expired, though 400
is neither a 2xx nor in the not-found/gone status class, where the claim
requires the indeterminate (true) classification. -/
theorem probe_bad_request_counterexample :
    testResourceId (.status 400) = false ∧ notFoundGone 400 = false ∧
      ¬ (200 ≤ 400 ∧ 400 ≤ 299) := by
  decide

/-- C1 amended: the probe returns true (live) for every 2xx status; it returns
false (expired) exactly for statuses 400, 404 and 410 and for thrown
TypeErrors (the confirmed cross-origin/opaque failures); every other status
and every other thrown error is classified true (indeterminate, treated as
live). -/
theorem probe_classification_amended :
    (∀ s, 200 ≤ s → s ≤ 299 → testResourceId (.status s) = true) ∧
    (∀ s, testResourceId (.status s) = false ↔ (s = 400 ∨ s = 404 ∨ s = 410)) ∧
    testResourceId .typeErrorFetch = false ∧
    testResourceId .typeErrorOther = false ∧
    testResourceId .otherError = true := by
  refine ⟨?_, ?_, rfl, rfl, rfl⟩
  · intro s h1 h2
    simp only [testResourceId]
    rw [if_neg (by omega), if_pos (Or.inl ⟨h1, h2⟩)]
  · intro s
    simp only [testResourceId]
    by_cases hc : s = 400 ∨ s = 404 ∨ s = 410
    · rw [if_pos hc]
      simp [hc]
    · rw [if_neg hc]
      simp [hc]

/-- C1 amended witness: a 2xx probe is live and a 400 probe is expired. -/
theorem probe_classification_amended_w :
    testResourceId (.status 250) = true ∧ testResourceId (.status 404) = false :=
  ⟨probe_classification_amended.1 250 (by decide) (by decide),
   (probe_classification_amended.2.1 404).2 (Or.inr (Or.inl rfl))⟩

theorem setResourceId_accept (e : Env) (s : String) (hw : e.hasWindow = true)
    (hval : isValidResourceId s = true) :
    setResourceId s e = (true, { e with store := some s }) := by
  have hne : ¬ (s = "" ∨ isValidResourceId s = false) := by
    rintro (h | h)
    · subst h
      exact absurd hval (by decide)
    · rw [hval] at h
      cases h
  simp [setResourceId, storeResourceId, hw, hne]

theorem setResourceId_reject (e : Env) (s : String)
    (hval : isValidResourceId s = false) :
    setResourceId s e = (false, e) := by
  by_cases hw : e.hasWindow = false
  · simp [setResourceId, hw]
  · simp [setResourceId, hw, hval]

/-- C5: in a browser, the setter accepts and persists a string exactly when it
is a case-insensitive hexadecimal string of at least 32 characters; every
other string is rejected with the stored state unchanged. -/
theorem store_setter_format (e : Env) (s : String) (hw : e.hasWindow = true) :
    ((setResourceId s e).1 = true ↔ SpecHexFormat s) ∧
    (SpecHexFormat s → (setResourceId s e).2 = { e with store := some s }) ∧
    (¬ SpecHexFormat s → (setResourceId s e).2 = e) := by
  cases hval : isValidResourceId s with
  | true =>
    have hsp := (valid_iff_spec s).mp hval
    rw [setResourceId_accept e s hw hval]
    simp [hsp]
  | false =>
    have hns : ¬ SpecHexFormat s := fun hsp => by
      rw [(valid_iff_spec s).mpr hsp] at hval
      cases hval
    rw [setResourceId_reject e s hval]
    simp [hns]

/-- C5 witness: a 32-character lowercase hexadecimal string is accepted. -/
theorem store_setter_format_w : (setResourceId idA envEmptyStore).1 = true :=
  (store_setter_format envEmptyStore idA rfl).1.2 (by decide)

/-- C6: on a 2xx discovery response whose body contains the given provider
URL, provisioning succeeds and extracts exactly the embedded 32-character
token. -/
theorem provisioning_extracts_token :
    fetchNewResourceId
      (.ok (200, "https://provider/api/deadbeefdeadbeefdeadbeefdeadbeef")) =
      .ok "deadbeefdeadbeefdeadbeefdeadbeef" := by
  rfl

/-- C7: provisioning fails exactly when the discovery fetch throws, the
response status is not 2xx, or no identifier can be extracted from the body;
and such a failure is propagated by the lifecycle manager rather than
swallowed. -/
theorem provision_error_characterization :
    (∀ u : Unit, fetchNewResourceId (.error u) = .error ()) ∧
    (∀ s body, fetchNewResourceId (.ok (s, body)) = .error () ↔
      (¬ (200 ≤ s ∧ s ≤ 299) ∨ extractedId body = none)) ∧
    (∀ e : Env, e.hasWindow = true → e.store = none →
      fetchNewResourceId (e.discoveryAt e.discIdx) = .error () →
      (getResourceIdRun e).1 = .error .provisionFailed) := by
  refine ⟨fun u => by cases u; rfl, ?_, ?_⟩
  · intro s body
    simp only [fetchNewResourceId]
    by_cases h : 200 ≤ s ∧ s ≤ 299
    · rw [if_neg (not_not_intro h)]
      cases hx : extractedId body with
      | none => simp [hx, h]
      | some cap => simp [hx, h]
    · rw [if_pos h]
      simp [h]
  · intro e hw hs herr
    simp [getResourceIdRun, getStoredResourceId, hw, hs, herr]

/-- C7 witness: an unreachable discovery endpoint fails provisioning, and the
lifecycle manager surfaces that failure. -/
theorem provision_error_characterization_w :
    fetchNewResourceId (Except.error ()) = .error () ∧
      (getResourceIdRun envNoDiscovery).1 = .error .provisionFailed :=
  ⟨provision_error_characterization.1 (),
   provision_error_characterization.2.2 envNoDiscovery rfl rfl (by rfl)⟩

/-- C8: loading the stored handle is side-effect free, so two loads with no
intervening save or clear return the same value. -/
theorem store_load_idempotent (e : Env) :
    (loadRun ((loadRun e).2)).1 = (loadRun e).1 ∧ (loadRun e).2 = e :=
  ⟨rfl, rfl⟩

/-- C9: the probe is total over probe outcomes: for every status or thrown
exception it resolves with a boolean classification and never propagates an
exception. -/
theorem probe_total (o : FetchOutcome) :
    testResourceIdE o = .ok (testResourceId o) := by
  cases o with
  | status s =>
    unfold testResourceIdE testResourceId
    repeat' split
    all_goals rfl
  | typeErrorFetch => rfl
  | typeErrorOther => rfl
  | otherError => rfl

/-- C10: outside a browser the lifecycle accessor fails immediately with the
no-browser error, with no probe, provision or store activity, while the Store
load is a safe no-op returning absent and clear is a safe no-op. -/
theorem no_browser_fails_fast (e : Env) (hw : e.hasWindow = false) :
    getResourceIdRun e = (.error .noBrowser, e, []) ∧
      getStoredResourceId e = none ∧ clearResourceId e = e := by
  refine ⟨?_, ?_, ?_⟩ <;>
    simp [getResourceIdRun, getStoredResourceId, clearResourceId, hw]

/-- C10 witness: the concrete non-browser environment. -/
theorem no_browser_fails_fast_w :
    getResourceIdRun envNoWindow = (.error .noBrowser, envNoWindow, []) ∧
      getStoredResourceId envNoWindow = none ∧
      clearResourceId envNoWindow = envNoWindow :=
  no_browser_fails_fast envNoWindow rfl

/-! Helper lemmas about the Gateway. -/

theorem apiRequest_retry_count (d : Bool) (rc : Nat) (e : Env) (h : rc ≠ 0) :
    List.count Event.crudAttempt (apiRequest d rc e).2.2 ≤ 1 := by
  have hevs := getRun_no_crud e
  unfold apiRequest
  rcases hg : getResourceIdRun e with ⟨r, e1, evs⟩
  rw [hg] at hevs
  simp only at hevs
  cases r with
  | error ge => simp [hevs]
  | ok rid =>
    dsimp only
    cases ho : e1.fetchAt e1.fetchIdx with
    | status s =>
      dsimp only
      split
      · rename_i hcond
        exact absurd hcond.2 h
      · split
        · simp [List.count_append, hevs]
        · split <;> simp [List.count_append, hevs]
    | typeErrorFetch =>
      dsimp only
      split
      · rename_i hcond
        exact absurd hcond h
      · simp [List.count_append, hevs]
    | typeErrorOther =>
      dsimp only
      simp [List.count_append, hevs]
    | otherError =>
      dsimp only
      simp [List.count_append, hevs]

theorem apiRequest_ceiling (d : Bool) (e : Env) :
    List.count Event.crudAttempt (apiRequest d 0 e).2.2 ≤ 2 := by
  have hevs := getRun_no_crud e
  unfold apiRequest
  rcases hg : getResourceIdRun e with ⟨r, e1, evs⟩
  rw [hg] at hevs
  simp only at hevs
  cases r with
  | error ge => simp [hevs]
  | ok rid =>
    dsimp only
    cases ho : e1.fetchAt e1.fetchIdx with
    | status s =>
      dsimp only
      split
      · have hr := apiRequest_retry_count d 1
          (clearResourceId { e1 with fetchIdx := e1.fetchIdx + 1 }) one_ne_zero
        simp [List.count_append, hevs]
        omega
      · split
        · simp [List.count_append, hevs]
        · split <;> simp [List.count_append, hevs]
    | typeErrorFetch =>
      dsimp only
      split
      · have hr := apiRequest_retry_count d 1
          (clearResourceId { e1 with fetchIdx := e1.fetchIdx + 1 }) one_ne_zero
        simp [List.count_append, hevs]
        omega
      · simp [List.count_append, hevs]
    | typeErrorOther =>
      dsimp only
      simp [List.count_append, hevs]
    | otherError =>
      dsimp only
      simp [List.count_append, hevs]

theorem apiRequest_retry_run (d : Bool) (e : Env) (nid : String)
    (hw : e.hasWindow = true) (hs : e.store = none)
    (hprov : fetchNewResourceId (e.discoveryAt e.discIdx) = .ok nid) :
    (apiRequest d 1 e).2.2 = [.provision, .save, .crudAttempt] ∧
    (isExpiredClass (e.fetchAt e.fetchIdx) = true →
      ∃ err, (apiRequest d 1 e).1 = .error err) := by
  have hget := getRun_empty e nid hw hs hprov
  constructor
  · unfold apiRequest
    rw [hget]
    dsimp only
    cases ho : e.fetchAt e.fetchIdx with
    | status s =>
      dsimp only
      split
      · rename_i hcond
        exact absurd hcond.2 one_ne_zero
      · split
        · rfl
        · split <;> rfl
    | typeErrorFetch =>
      dsimp only
      split
      · rename_i hcond
        exact absurd hcond one_ne_zero
      · rfl
    | typeErrorOther => rfl
    | otherError => rfl
  · intro hexp
    unfold apiRequest
    rw [hget]
    dsimp only
    cases ho : e.fetchAt e.fetchIdx with
    | status s =>
      rw [ho] at hexp
      simp only [isExpiredClass, decide_eq_true_eq] at hexp
      dsimp only
      split
      · rename_i hcond
        exact absurd hcond.2 one_ne_zero
      · split
        · exact ⟨statusErr s, rfl⟩
        · rename_i hcond
          exact absurd (fun hok => by omega) hcond
    | typeErrorFetch =>
      dsimp only
      split
      · rename_i hcond
        exact absurd hcond one_ne_zero
      · exact ⟨.networkErr, rfl⟩
    | typeErrorOther =>
      dsimp only
      exact ⟨.rethrown, rfl⟩
    | otherError =>
      dsimp only
      exact ⟨.rethrown, rfl⟩

theorem apiRequest_first_expired (d : Bool) (e e1 : Env) (rid nid : String)
    (evs1 : List Event)
    (hget : getResourceIdRun e = (.ok rid, e1, evs1))
    (hexp : isExpiredClass (e1.fetchAt e1.fetchIdx) = true)
    (hprov : fetchNewResourceId (e1.discoveryAt e1.discIdx) = .ok nid) :
    (apiRequest d 0 e).2.2 =
      evs1 ++ [.crudAttempt, .clear, .provision, .save, .crudAttempt] ∧
    (isExpiredClass (e1.fetchAt (e1.fetchIdx + 1)) = true →
      ∃ err, (apiRequest d 0 e).1 = .error err) := by
  obtain ⟨hw, hw1, -, -, -⟩ := getRun_ok_fields e rid e1 evs1 hget
  rw [hw] at hw1
  have hclear :
      clearResourceId { e1 with fetchIdx := e1.fetchIdx + 1 } =
        { e1 with fetchIdx := e1.fetchIdx + 1, store := none } := by
    simp [clearResourceId, hw1]
  have hrun := apiRequest_retry_run d
    { e1 with fetchIdx := e1.fetchIdx + 1, store := none } nid hw1 rfl hprov
  constructor
  · unfold apiRequest
    rw [hget]
    dsimp only
    cases ho : e1.fetchAt e1.fetchIdx with
    | status s =>
      rw [ho] at hexp
      simp only [isExpiredClass, decide_eq_true_eq] at hexp
      dsimp only
      split
      · rw [hclear]
        simp only [Nat.zero_add]
        rw [hrun.1]
        simp
      · rename_i hcond
        exact absurd ⟨hexp, rfl⟩ hcond
    | typeErrorFetch =>
      dsimp only
      split
      · rw [hclear]
        simp only [Nat.zero_add]
        rw [hrun.1]
        simp
      · rename_i hcond
        exact absurd rfl hcond
    | typeErrorOther =>
      rw [ho] at hexp
      simp [isExpiredClass] at hexp
    | otherError =>
      rw [ho] at hexp
      simp [isExpiredClass] at hexp
  · intro hsecond
    obtain ⟨err, herr⟩ := hrun.2 hsecond
    refine ⟨err, ?_⟩
    unfold apiRequest
    rw [hget]
    dsimp only
    cases ho : e1.fetchAt e1.fetchIdx with
    | status s =>
      rw [ho] at hexp
      simp only [isExpiredClass, decide_eq_true_eq] at hexp
      dsimp only
      split
      · rw [hclear]
        simp only [Nat.zero_add]
        exact herr
      · rename_i hcond
        exact absurd ⟨hexp, rfl⟩ hcond
    | typeErrorFetch =>
      dsimp only
      split
      · rw [hclear]
        simp only [Nat.zero_add]
        exact herr
      · rename_i hcond
        exact absurd rfl hcond
    | typeErrorOther =>
      rw [ho] at hexp
      simp [isExpiredClass] at hexp
    | otherError =>
      rw [ho] at hexp
      simp [isExpiredClass] at hexp

/-- C2: when the first Gateway attempt is classified expired-class (status
400/404/410 or a network TypeError) and re-provisioning succeeds, the run
clears the handle once, provisions exactly once more, and issues exactly one
second attempt; if the second attempt is classified the same way, an error is
surfaced to the caller; and no run ever issues more than two attempts. -/
theorem gateway_single_retry (d : Bool) (e e1 : Env) (rid nid : String)
    (evs1 : List Event)
    (hget : getResourceIdRun e = (.ok rid, e1, evs1))
    (hexp : isExpiredClass (e1.fetchAt e1.fetchIdx) = true)
    (hprov : fetchNewResourceId (e1.discoveryAt e1.discIdx) = .ok nid) :
    (apiRequest d 0 e).2.2 =
      evs1 ++ [.crudAttempt, .clear, .provision, .save, .crudAttempt] ∧
    List.count Event.crudAttempt (apiRequest d 0 e).2.2 = 2 ∧
    List.count Event.provision (apiRequest d 0 e).2.2 =
      List.count Event.provision evs1 + 1 ∧
    (isExpiredClass (e1.fetchAt (e1.fetchIdx + 1)) = true →
      ∃ err, (apiRequest d 0 e).1 = .error err) ∧
    (∀ d2 e2, List.count Event.crudAttempt (apiRequest d2 0 e2).2.2 ≤ 2) := by
  obtain ⟨htr, herr⟩ := apiRequest_first_expired d e e1 rid nid evs1 hget hexp hprov
  have hevs := getRun_no_crud e
  rw [hget] at hevs
  simp only at hevs
  refine ⟨htr, ?_, ?_, herr, fun d2 e2 => apiRequest_ceiling d2 e2⟩
  · rw [htr]
    simp [List.count_append, hevs]
  · rw [htr]
    simp [List.count_append]

/-- C2 witness: a concrete run whose two attempts both answer 404. -/
theorem gateway_single_retry_w :
    (apiRequest false 0 envTwiceGone).2.2 =
      [.probe, .crudAttempt, .clear, .provision, .save, .crudAttempt] ∧
    List.count Event.crudAttempt (apiRequest false 0 envTwiceGone).2.2 = 2 ∧
    ∃ err, (apiRequest false 0 envTwiceGone).1 = .error err := by
  have h := gateway_single_retry false envTwiceGone
    { envTwiceGone with probeIdx := 1 } idA idB [.probe] (by rfl) (by rfl) (by rfl)
  exact ⟨h.1, h.2.1, h.2.2.2.1 (by rfl)⟩

/-- C3 counterexample: a bad-request status 400 on the first attempt does not
surface immediately: the Gateway clears, re-provisions and issues a second
attempt, so the run contains two CRUD attempts. -/
theorem gateway_bad_request_retries :
    envBadRequest.fetchAt envBadRequest.fetchIdx = .status 400 ∧
    List.count Event.crudAttempt (apiRequest false 0 envBadRequest).2.2 = 2 ∧
    List.count Event.clear (apiRequest false 0 envBadRequest).2.2 = 1 := by
  have h := apiRequest_first_expired false envBadRequest
    { envBadRequest with probeIdx := 1 } idA idB [.probe] (by rfl) (by rfl) (by rfl)
  rw [h.1]
  exact ⟨rfl, by rfl, by rfl⟩

/-- C3 amended: a response with an error status outside the expired class
400/404/410 (for example unauthorized 401 or a server error 5xx) is surfaced
immediately, with exactly one attempt, no clear and no re-provision; a 400,
although a bad request, is treated as expired-class and does trigger the one
retry. -/
theorem gateway_other_errors_immediate (d : Bool) (e e1 : Env) (rid : String)
    (evs1 : List Event) (s : Nat)
    (hget : getResourceIdRun e = (.ok rid, e1, evs1))
    (ho : e1.fetchAt e1.fetchIdx = .status s)
    (hnok : ¬ (200 ≤ s ∧ s ≤ 299))
    (hne : ¬ (s = 400 ∨ s = 404 ∨ s = 410)) :
    apiRequest d 0 e =
      (.error (statusErr s), { e1 with fetchIdx := e1.fetchIdx + 1 },
        evs1 ++ [.crudAttempt]) := by
  unfold apiRequest
  rw [hget]
  dsimp only
  rw [ho]
  dsimp only
  split
  · rename_i hcond
    exact absurd hcond.1 hne
  · rfl

/-- C3 amended witness: a 401 response surfaces immediately after one
attempt. -/
theorem gateway_other_errors_immediate_w :
    apiRequest false 0 envUnauthorized =
      (.error (statusErr 401),
        { envUnauthorized with probeIdx := 1, fetchIdx := 1 },
        [.probe, .crudAttempt]) :=
  gateway_other_errors_immediate false envUnauthorized
    { envUnauthorized with probeIdx := 1 } idA [.probe] 401 (by rfl) rfl
    (by decide) (by decide)

end ResourceManager
